import Mathlib

/-!
Verification of the scim2-tester conformance checker (src/scim2_tester/checker.py).

The file embeds the check-execution model of the repository: the result
model (Status, CheckResult), the decorating execution wrapper, the
random-URL negative check and the orchestrator check_server.  The
protocol client facade (scim2_client) is an external collaborator: its
observable behaviour at each endpoint is a parameter of the model, as a
SCIMServer structure whose fields give the outcome of each request.

Definitions for code living in checker.py are translated from that
source.  The helper modules scim2_tester.utils, .service_provider_config,
.schemas, .resource_types and .resource are part of the repository but
absent from src/; their definitions here are modelled from the spec and
say so in their doc comment.
-/

namespace Scim2Tester

/-- Status enumeration of a check result, from the result model
(scim2_tester.utils, spec section 3): a closed enumeration with exactly
the three states SUCCESS, ERROR and SKIPPED. -/
inductive Status where
  | SUCCESS
  | ERROR
  | SKIPPED
  deriving DecidableEq, Repr

/-- Typed protocol object returned by the client facade: either the
generic Error object (scim2_models.Error, with its status field,
optional as all scim2_models fields are), or any other protocol object
(ServiceProviderConfig, User, Group, ...), abstracted by a description.
The checks only discriminate Error from non-Error and read
Error.status, mirroring isinstance(response, Error) and
response.status in the source. -/
inductive ProtocolObject where
  | error (status : Option Nat)
  | other (desc : String)
  deriving DecidableEq, Repr

/-- Diagnostic payload attached to a CheckResult.data field: either raw
response body content (bytes, modelled as a string) or a parsed
protocol object. -/
inductive Payload where
  | rawContent (content : String)
  | obj (o : ProtocolObject)
  deriving DecidableEq, Repr

/-- Modelled from the spec: the CheckResult record of scim2_tester.utils
(absent from src/), spec section 3: a required status, a human title
identifying the check (attached by the wrapper when the check does not
set one), an optional reason string and an optional diagnostic
payload. -/
structure CheckResult where
  status : Status
  title : Option String := none
  reason : Option String := none
  data : Option Payload := none
  deriving DecidableEq, Repr

/-- Return shape of a check function, spec section 4.2: either a single
CheckResult, or a pair of a payload (consumed by later steps) and a
CheckResult, as in the source return of check_random_url which pairs
the result with the parsed response on success. -/
inductive CheckReturn where
  | single (result : CheckResult)
  | pair (payload : ProtocolObject) (result : CheckResult)
  deriving DecidableEq, Repr

/-- CheckResult component of a CheckReturn. -/
def CheckReturn.result : CheckReturn → CheckResult
  | .single r => r
  | .pair _ r => r

/-- Outcome of invoking a check function once: either it returned
normally, or it raised an uncaught condition carrying a failure
description (str(exc) in Python). -/
inductive CheckOutcome where
  | ok (r : CheckReturn)
  | raised (msg : String)
  deriving DecidableEq, Repr

/-- Attach the derived title when the check did not set one explicitly
(spec section 4.2). -/
def CheckResult.withTitle (t : String) (c : CheckResult) : CheckResult :=
  match c.title with
  | some _ => c
  | none => { c with title := some t }

/-- Attach the derived title to the result component of a CheckReturn. -/
def CheckReturn.withTitle (t : String) : CheckReturn → CheckReturn
  | .single c => .single (c.withTitle t)
  | .pair p c => .pair p (c.withTitle t)

/-- Modelled from the spec: decorate_result of scim2_tester.utils
(absent from src/), spec section 4.2.  The execution wrapper takes the
identity of the check (its derived title) and the outcome of invoking
the check function once, and guarantees a normalized, exception-free
CheckReturn: a raised condition becomes a single ERROR result carrying
the failure description, and a normal return is passed through with
the derived title attached when the check did not set one. -/
def decorate_result (name : String) : CheckOutcome → CheckReturn
  | .raised msg =>
      .single { status := .ERROR, title := some name, reason := some msg }
  | .ok r => r.withTitle name

/-- Outcome of one scim.query(url) call against the protocol client
facade (spec section 6): a transport-layer failure (httpx.HTTPError,
carrying its stringified message), a protocol parse failure
(scim2_client.SCIMClientError, carrying the raw response content), or
a parsed protocol object. -/
inductive QueryOutcome where
  | httpError (msg : String)
  | scimClientError (responseContent : String)
  | ok (obj : ProtocolObject)
  deriving DecidableEq, Repr

/-- Stringification of the optional Error.status field as Python
f-string interpolation renders it: the number itself, or None. -/
def statusStr : Option Nat → String
  | some n => toString n
  | none => "None"

/-- Body of check_random_url from src/scim2_tester/checker.py, before
decoration.  The query function models scim.query; u models the
generated uuid4, so probably_invalid_url is the slash-prefixed uuid.
Each branch follows the source: an HTTPError gives an ERROR result
with the stringified error as reason; a SCIMClientError gives an
ERROR result noting the URL did not return an Error object, with the
raw response content as data; a parsed non-Error object gives the
same reason with the object as data; a parsed Error whose status is
not 404 gives an ERROR result whose reason carries the actual status,
with the object as data; a parsed Error with status 404 gives the
SUCCESS result paired with the response. -/
def check_random_url_body (query : String → QueryOutcome) (u : String) :
    CheckReturn :=
  let probably_invalid_url := "/" ++ u
  match query probably_invalid_url with
  | .httpError msg =>
      .single { status := .ERROR, reason := some msg }
  | .scimClientError responseContent =>
      .single { status := .ERROR
                reason := some (probably_invalid_url ++ " did not return an Error object")
                data := some (.rawContent responseContent) }
  | .ok obj =>
      match obj with
      | .other d =>
          .single { status := .ERROR
                    reason := some (probably_invalid_url ++ " did not return an Error object")
                    data := some (.obj (.other d)) }
      | .error st =>
          if st ≠ some 404 then
            .single { status := .ERROR
                      reason := some (probably_invalid_url ++
                        " did return an object, but the status code is " ++ statusStr st)
                      data := some (.obj (.error st)) }
          else
            .pair (.error st)
              { status := .SUCCESS
                reason := some (probably_invalid_url ++ " correctly returned a 404 error") }

/-- check_random_url from src/scim2_tester/checker.py: the body run
through the decorate_result wrapper.  The body never raises (the two
exception classes the facade can raise are caught inside it), so the
wrapper receives a normal return. -/
def check_random_url (query : String → QueryOutcome) (u : String) : CheckReturn :=
  decorate_result "check_random_url" (.ok (check_random_url_body query u))

/-- Service-provider configuration object of scim2_models, abstracted:
the checks only pass it forward to gate optional resource checks. -/
structure ServiceProviderConfig where
  raw : String
  deriving DecidableEq, Repr

/-- Schema object of scim2_models, abstracted by its id. -/
structure SchemaObj where
  id : String
  deriving DecidableEq, Repr

/-- Resource type object of scim2_models, abstracted by its name. -/
structure ResourceTypeObj where
  name : String
  deriving DecidableEq, Repr

/-- Outcome of one read request against a discovery endpoint, through
the protocol client facade: a transport failure, a protocol parse
failure carrying the raw body, or the parsed object of type a. -/
inductive EndpointOutcome (a : Type) where
  | transportError (msg : String)
  | parseError (raw : String)
  | ok (v : a)
  deriving DecidableEq, Repr

/-- Whether an endpoint request failed to yield its parsed object. -/
def EndpointOutcome.failed {a : Type} : EndpointOutcome a → Bool
  | .ok _ => false
  | _ => true

/-- One step of the resource-lifecycle sequence, as the server behaves
on it: the step identity, its resulting status and reason, and its
diagnostic payload, which may depend on per-run generated resource
identifiers (the run seed) while status and reason do not (spec
section 8, idempotence: data payloads may differ only by identifiers
generated per run). -/
structure LifecycleStep where
  name : String
  status : Status
  reason : String
  data : String → Option Payload

/-- Observable behaviour of one SCIM server, as each request's outcome:
the three discovery endpoints, the response to an arbitrary URL
(consumed by the random-URL check), and the per-step behaviour of the
resource-lifecycle sequence of each discovered resource type.  An
unchanged, stateless server is one fixed value of this structure. -/
structure SCIMServer where
  spcOutcome : EndpointOutcome ServiceProviderConfig
  schemasOutcome : EndpointOutcome (List SchemaObj)
  resourceTypesOutcome : EndpointOutcome (List ResourceTypeObj)
  urlResponse : String → QueryOutcome
  lifecycle : ResourceTypeObj → ServiceProviderConfig → List LifecycleStep

/-- Modelled from the spec: the common shape of the three discovery
endpoint checks (scim2_tester.service_provider_config, .schemas,
.resource_types, absent from src/), spec sections 4.3 and 4.2: issue a
read request for the endpoint; a transport failure yields ERROR with
the stringified error as reason; a parse failure yields ERROR with the
raw body as data; a valid response yields SUCCESS together with the
parsed object, which is passed forward.  On failure no object is
produced. -/
def endpointCheck {a : Type} (title : String) (o : EndpointOutcome a) :
    CheckResult × Option a :=
  match o with
  | .transportError msg =>
      ({ status := .ERROR, title := some title, reason := some msg }, none)
  | .parseError raw =>
      ({ status := .ERROR, title := some title
         reason := some (title ++ " endpoint did not return a valid object")
         data := some (.rawContent raw) }, none)
  | .ok v =>
      ({ status := .SUCCESS, title := some title
         reason := some (title ++ " endpoint returned a valid object") }, some v)

/-- Modelled from the spec: check_service_provider_config_endpoint of
scim2_tester.service_provider_config (absent from src/), spec section
4.3: a single check against the service-provider configuration
endpoint, returning its result and the parsed configuration when
discovery succeeded. -/
def check_service_provider_config_endpoint (s : SCIMServer) :
    CheckResult × Option ServiceProviderConfig :=
  endpointCheck "check_service_provider_config_endpoint" s.spcOutcome

/-- Modelled from the spec: check_schemas_endpoint of
scim2_tester.schemas (absent from src/), spec section 4.3: a single
check against the schemas discovery endpoint. -/
def check_schemas_endpoint (s : SCIMServer) :
    CheckResult × Option (List SchemaObj) :=
  endpointCheck "check_schemas_endpoint" s.schemasOutcome

/-- Modelled from the spec: check_resource_types_endpoint of
scim2_tester.resource_types (absent from src/), spec sections 4.3 and
9: a single check against the resource-types discovery endpoint.  The
returned list is iterated by the orchestrator, so a failed discovery
yields the empty list (zero lifecycle sequences run). -/
def check_resource_types_endpoint (s : SCIMServer) :
    CheckResult × List ResourceTypeObj :=
  match endpointCheck "check_resource_types_endpoint" s.resourceTypesOutcome with
  | (r, some l) => (r, l)
  | (r, none) => (r, [])

/-- Step identities of the resource-lifecycle sequence, in the order of
spec section 4.4: random-URL negative check, existence/search check,
create, read-back, update, delete, read-after-delete. -/
def lifecycleStepNames : List String :=
  ["random_url", "search", "create", "read", "update", "delete", "read_after_delete"]

/-- Modelled from the spec: check_resource_type of
scim2_tester.resource (absent from src/), spec sections 4.4 and 4.3:
the ordered lifecycle sub-sequence for one discovered resource type.
Checks depending on missing upstream data degrade to SKIPPED rather
than attempting and failing, so when discovery produced no
service-provider configuration every step of the sequence is reported
SKIPPED, not attempted.  Otherwise each step reports the server's
behaviour on it; the run seed feeds only the diagnostic payload
(per-run generated resource identifiers). -/
def check_resource_type (s : SCIMServer) (seed : String)
    (rt : ResourceTypeObj) (spc : Option ServiceProviderConfig) :
    List CheckResult :=
  match spc with
  | none =>
      lifecycleStepNames.map fun n =>
        { status := .SKIPPED
          title := some (n ++ " " ++ rt.name)
          reason := some "skipped because upstream discovery data is missing" }
  | some cfg =>
      (s.lifecycle rt cfg).map fun st =>
        { status := st.status
          title := some (st.name ++ " " ++ rt.name)
          reason := some st.reason
          data := st.data seed }

/-- check_server from src/scim2_tester/checker.py: the orchestrator.
It runs the three discovery checks in order, appending each result and
keeping the parsed objects, then the random-URL check (the wrapper
normalizes its return, so the orchestrator appends its single
CheckResult), then extends the report with one lifecycle sequence per
discovered resource type, iterating the discovered list in order.  The
seed models the per-run random identifiers (the uuid4 of the
random-URL check and the identifiers of created resources). -/
def check_server (s : SCIMServer) (seed : String) : List CheckResult :=
  let spcStep := check_service_provider_config_endpoint s
  let schemasStep := check_schemas_endpoint s
  let rtStep := check_resource_types_endpoint s
  let randResult := (check_random_url s.urlResponse seed).result
  [spcStep.1, schemasStep.1, rtStep.1, randResult] ++
    rtStep.2.flatMap fun rt => check_resource_type s seed rt spcStep.2

/-- Whether the reason of a result is present and mentions the given
text as a contiguous substring. -/
def mentions (c : CheckResult) (s : String) : Bool :=
  match c.reason with
  | some r => decide (s.data <:+: r.data)
  | none => false

/-- Whether the reason of a result is present and non-empty. -/
def hasNonEmptyReason (c : CheckResult) : Bool :=
  match c.reason with
  | some r => !(r == "")
  | none => false

/-- Whether two query outcomes have the same shape: the same branch of
the random-URL check applies to both.  An unchanged, stateless server
responds with same-shaped outcomes to any two unknown random URLs. -/
def QueryOutcome.sameShape : QueryOutcome → QueryOutcome → Bool
  | .httpError _, .httpError _ => true
  | .scimClientError _, .scimClientError _ => true
  | .ok (.other _), .ok (.other _) => true
  | .ok (.error s1), .ok (.error s2) => (s1 == some 404) == (s2 == some 404)
  | _, _ => false

/-- Concrete server whose service-provider-config endpoint is
unreachable while resource-type discovery still yields two resource
types; used to instantiate the discovery-failure theorems. -/
def unreachableSpcServer : SCIMServer where
  spcOutcome := .transportError "connection refused"
  schemasOutcome := .ok [{ id := "urn:ietf:params:scim:schemas:core:2.0:User" }]
  resourceTypesOutcome := .ok [{ name := "User" }, { name := "Group" }]
  urlResponse := fun _ => .ok (.error (some 404))
  lifecycle := fun _ _ => []

/-- Concrete healthy server with one resource type and a two-step
lifecycle whose diagnostic payload embeds the per-run seed; used to
instantiate the idempotence theorem. -/
def healthyServer : SCIMServer where
  spcOutcome := .ok { raw := "spc" }
  schemasOutcome := .ok [{ id := "urn:ietf:params:scim:schemas:core:2.0:User" }]
  resourceTypesOutcome := .ok [{ name := "User" }]
  urlResponse := fun _ => .ok (.error (some 404))
  lifecycle := fun _ _ =>
    [{ name := "create", status := .SUCCESS, reason := "created"
       data := fun seed => some (.rawContent seed) },
     { name := "read", status := .SUCCESS, reason := "read back"
       data := fun seed => some (.rawContent seed) }]

/-- C1: for every check function and every condition it raises, the
decorated check never lets the condition cross its boundary: it always
returns a well-formed CheckReturn whose result carries a title, and a
check that raises an uncaught condition surfaces as a single ERROR
result carrying the failure description. -/
theorem decorate_result_absorbs_raised (name : String) (run : CheckOutcome) :
    ((decorate_result name run).result.title).isSome = true ∧
    ∀ msg, run = .raised msg →
      decorate_result name run =
        .single { status := .ERROR, title := some name, reason := some msg, data := none } := by
  constructor
  · cases run with
    | raised msg => simp [decorate_result, CheckReturn.result]
    | ok r =>
      cases r with
      | single c =>
        cases hc : c.title <;>
          simp [decorate_result, CheckReturn.withTitle, CheckResult.withTitle,
            CheckReturn.result, hc]
      | pair p c =>
        cases hc : c.title <;>
          simp [decorate_result, CheckReturn.withTitle, CheckResult.withTitle,
            CheckReturn.result, hc]
  · intro msg hrun
    subst hrun
    rfl

/-- Witness for C1 at a concrete raising check. -/
theorem decorate_result_absorbs_raised_witness :
    (((decorate_result "check_demo" (.raised "boom")).result.title).isSome = true) ∧
    decorate_result "check_demo" (.raised "boom") =
      .single { status := .ERROR, title := some "check_demo", reason := some "boom", data := none } :=
  ⟨(decorate_result_absorbs_raised "check_demo" (.raised "boom")).1,
   (decorate_result_absorbs_raised "check_demo" (.raised "boom")).2 "boom" rfl⟩

/-- C2: check_random_url yields a SUCCESS result exactly when the query
of the random URL returns, without raising, an Error protocol object
whose status field equals exactly 404. -/
theorem check_random_url_success_iff (query : String → QueryOutcome) (u : String) :
    (check_random_url query u).result.status = Status.SUCCESS ↔
      query ("/" ++ u) = .ok (.error (some 404)) := by
  unfold check_random_url check_random_url_body
  cases hq : query ("/" ++ u) with
  | httpError msg =>
      simp [hq, decorate_result, CheckReturn.withTitle, CheckResult.withTitle, CheckReturn.result]
  | scimClientError c =>
      simp [hq, decorate_result, CheckReturn.withTitle, CheckResult.withTitle, CheckReturn.result]
  | ok obj =>
      cases obj with
      | other d =>
          simp [hq, decorate_result, CheckReturn.withTitle, CheckResult.withTitle, CheckReturn.result]
      | error st =>
          by_cases h404 : st = some 404
          · subst h404
            simp [hq, decorate_result, CheckReturn.withTitle, CheckResult.withTitle, CheckReturn.result]
          · simp [hq, decorate_result, CheckReturn.withTitle, CheckResult.withTitle,
              CheckReturn.result, h404]

/-- C5: when the query of the random URL raises a transport-layer
error, the result is a single ERROR result whose reason equals the
stringified transport error, with no data attached. -/
theorem check_random_url_transport_error (query : String → QueryOutcome)
    (u msg : String) (h : query ("/" ++ u) = .httpError msg) :
    check_random_url query u =
      .single { status := .ERROR, title := some "check_random_url"
                reason := some msg, data := none } := by
  unfold check_random_url check_random_url_body
  simp [h, decorate_result, CheckReturn.withTitle, CheckResult.withTitle]

/-- Witness for C5 at a concrete transport error. -/
theorem check_random_url_transport_error_witness :
    check_random_url (fun _ => .httpError "connection timed out") "u" =
      .single { status := .ERROR, title := some "check_random_url"
                reason := some "connection timed out", data := none } :=
  check_random_url_transport_error (fun _ => .httpError "connection timed out")
    "u" "connection timed out" rfl

/-- C6: when the client cannot interpret the response of the random URL
as any protocol object, the result is a single ERROR result whose
reason notes that the URL did not return an Error object and whose
data is the raw response content. -/
theorem check_random_url_parse_error (query : String → QueryOutcome)
    (u raw : String) (h : query ("/" ++ u) = .scimClientError raw) :
    check_random_url query u =
      .single { status := .ERROR, title := some "check_random_url"
                reason := some ("/" ++ u ++ " did not return an Error object")
                data := some (.rawContent raw) } := by
  unfold check_random_url check_random_url_body
  simp [h, decorate_result, CheckReturn.withTitle, CheckResult.withTitle]

/-- Witness for C6 at a concrete unparseable response body. -/
theorem check_random_url_parse_error_witness :
    check_random_url (fun _ => .scimClientError "<html>404</html>") "u" =
      .single { status := .ERROR, title := some "check_random_url"
                reason := some ("/" ++ "u" ++ " did not return an Error object")
                data := some (.rawContent "<html>404</html>") } :=
  check_random_url_parse_error (fun _ => .scimClientError "<html>404</html>")
    "u" "<html>404</html>" rfl

/-- C7: when the query of the random URL returns a well-formed Error
object whose status is not 404, the result is a single ERROR result
whose reason carries the actual status value and whose data is the
Error object itself. -/
theorem check_random_url_wrong_status (query : String → QueryOutcome)
    (u : String) (st : Option Nat) (h : query ("/" ++ u) = .ok (.error st))
    (hne : st ≠ some 404) :
    check_random_url query u =
      .single { status := .ERROR, title := some "check_random_url"
                reason := some ("/" ++ u ++
                  " did return an object, but the status code is " ++ statusStr st)
                data := some (.obj (.error st)) } := by
  unfold check_random_url check_random_url_body
  simp [h, hne, decorate_result, CheckReturn.withTitle, CheckResult.withTitle]

/-- Witness for C7 at a concrete Error object with status 400. -/
theorem check_random_url_wrong_status_witness :
    check_random_url (fun _ => .ok (.error (some 400))) "u" =
      .single { status := .ERROR, title := some "check_random_url"
                reason := some ("/" ++ "u" ++
                  " did return an object, but the status code is " ++ statusStr (some 400))
                data := some (.obj (.error (some 400))) } :=
  check_random_url_wrong_status (fun _ => .ok (.error (some 400)))
    "u" (some 400) rfl (by decide)

/-- C3 counterexample: when the query of the random URL returns a
parsed object that is not an Error (a server answering HTTP 200 with,
say, a User object), the reason of the resulting ERROR result does not
mention "did return an object"; it is the "did not return an Error
object" reason instead, so the claim as stated fails at this input. -/
theorem check_random_url_parsed_object_counterexample :
    ¬ (((check_random_url (fun _ => .ok (.other "a User object")) "u").result.status =
          Status.ERROR) ∧
       mentions ((check_random_url (fun _ => .ok (.other "a User object")) "u").result)
         "did return an object" = true) := by
  decide

/-- C3 amended: when the query of the random URL returns a parsed
object, the outcome depends on that object: a well-formed Error whose
status is not 404 yields ERROR with a reason mentioning "did return an
object" together with the actual status, and the object in data; a
non-Error object yields ERROR with a reason noting the URL did not
return an Error object, and the object in data; an Error with status
404 yields SUCCESS. -/
theorem check_random_url_parsed_object (query : String → QueryOutcome) (u : String)
    (obj : ProtocolObject) (h : query ("/" ++ u) = .ok obj) :
    (∀ st, obj = .error st → st ≠ some 404 →
      (check_random_url query u).result =
        { status := .ERROR, title := some "check_random_url"
          reason := some ("/" ++ u ++
            " did return an object, but the status code is " ++ statusStr st)
          data := some (.obj (.error st)) }) ∧
    (∀ d, obj = .other d →
      (check_random_url query u).result =
        { status := .ERROR, title := some "check_random_url"
          reason := some ("/" ++ u ++ " did not return an Error object")
          data := some (.obj (.other d)) }) ∧
    (obj = .error (some 404) →
      (check_random_url query u).result.status = Status.SUCCESS) := by
  refine ⟨?_, ?_, ?_⟩
  · intro st hobj hne
    subst hobj
    simp [check_random_url, check_random_url_body, h, hne, decorate_result,
      CheckReturn.withTitle, CheckResult.withTitle, CheckReturn.result]
  · intro d hobj
    subst hobj
    simp [check_random_url, check_random_url_body, h, decorate_result,
      CheckReturn.withTitle, CheckResult.withTitle, CheckReturn.result]
  · intro hobj
    subst hobj
    simp [check_random_url, check_random_url_body, h, decorate_result,
      CheckReturn.withTitle, CheckResult.withTitle, CheckReturn.result]

/-- Witness for the amended C3 at a concrete Error object with status 400. -/
theorem check_random_url_parsed_object_witness :
    (check_random_url (fun _ => .ok (.error (some 400))) "u").result =
      { status := .ERROR, title := some "check_random_url"
        reason := some ("/" ++ "u" ++
          " did return an object, but the status code is " ++ statusStr (some 400))
        data := some (.obj (.error (some 400))) } :=
  (check_random_url_parsed_object (fun _ => .ok (.error (some 400))) "u"
      (.error (some 400)) rfl).1 (some 400) rfl (by decide)

/-- C4: when service-provider-config discovery fails, check_server
still completes and returns a non-empty report, the lifecycle portion
of the report is exactly the lifecycle sequences of the discovered
resource types run without upstream configuration, and every one of
those lifecycle results is SKIPPED rather than attempted. -/
theorem check_server_discovery_failure (s : SCIMServer) (seed : String)
    (h : s.spcOutcome.failed = true) :
    check_server s seed ≠ [] ∧
    (check_server s seed).drop 4 =
      (check_resource_types_endpoint s).2.flatMap
        (fun rt => check_resource_type s seed rt none) ∧
    ∀ r ∈ (check_server s seed).drop 4, r.status = Status.SKIPPED := by
  have hspc : (check_service_provider_config_endpoint s).2 = none := by
    cases ho : s.spcOutcome <;>
      simp [check_service_provider_config_endpoint, endpointCheck,
        EndpointOutcome.failed, ho] at h ⊢
  refine ⟨by simp [check_server], ?_, ?_⟩
  · simp [check_server, hspc]
  · intro r hr
    simp only [check_server, hspc, List.cons_append, List.nil_append,
      List.drop_succ_cons, List.drop_zero] at hr
    simp only [check_resource_type, List.mem_flatMap, List.mem_map] at hr
    obtain ⟨rt, hrt, n, hn, hrn⟩ := hr
    rw [← hrn]

/-- Witness for C4 at a concrete server whose service-provider-config
endpoint is unreachable while two resource types are discovered. -/
theorem check_server_discovery_failure_witness :
    check_server unreachableSpcServer "seed" ≠ [] ∧
    (check_server unreachableSpcServer "seed").drop 4 =
      (check_resource_types_endpoint unreachableSpcServer).2.flatMap
        (fun rt => check_resource_type unreachableSpcServer "seed" rt none) ∧
    ∀ r ∈ (check_server unreachableSpcServer "seed").drop 4,
      r.status = Status.SKIPPED :=
  check_server_discovery_failure unreachableSpcServer "seed" rfl

/-- C8: the report of check_server is ordered as the
service-provider-config result, then the schemas result, then the
resource-types result, then the random-URL result, then the lifecycle
sequences of the discovered resource types concatenated in discovery
order, whatever the outcome of each check. -/
theorem check_server_report_order (s : SCIMServer) (seed : String) :
    (check_server s seed).take 4 =
      [(check_service_provider_config_endpoint s).1,
       (check_schemas_endpoint s).1,
       (check_resource_types_endpoint s).1,
       (check_random_url s.urlResponse seed).result] ∧
    (check_server s seed).drop 4 =
      (check_resource_types_endpoint s).2.flatMap
        (fun rt => check_resource_type s seed rt
          (check_service_provider_config_endpoint s).2) :=
  ⟨rfl, rfl⟩

/-- Mapping a function over a flat-mapped list only depends on the
mapped image of each block. -/
theorem map_flatMap_congr {α β γ : Type} (g : β → γ) (f1 f2 : α → List β)
    (l : List α) (h : ∀ x, (f1 x).map g = (f2 x).map g) :
    (l.flatMap f1).map g = (l.flatMap f2).map g := by
  induction l with
  | nil => rfl
  | cons a t ih => simp only [List.flatMap_cons, List.map_append, h, ih]

/-- Status and title of a lifecycle sequence do not depend on the run
seed: the seed only feeds the diagnostic payload. -/
theorem check_resource_type_seed_invariant (s : SCIMServer) (rt : ResourceTypeObj)
    (spc : Option ServiceProviderConfig) (seed1 seed2 : String) :
    (check_resource_type s seed1 rt spc).map CheckResult.status =
      (check_resource_type s seed2 rt spc).map CheckResult.status ∧
    (check_resource_type s seed1 rt spc).map CheckResult.title =
      (check_resource_type s seed2 rt spc).map CheckResult.title := by
  cases spc <;> simp [check_resource_type, List.map_map, Function.comp]

/-- Status and title of the random-URL check only depend on the shape
of the query outcome, not on the generated uuid or the payloads. -/
theorem check_random_url_shape_invariant (q1 q2 : String → QueryOutcome)
    (u1 u2 : String)
    (h : QueryOutcome.sameShape (q1 ("/" ++ u1)) (q2 ("/" ++ u2)) = true) :
    (check_random_url q1 u1).result.status = (check_random_url q2 u2).result.status ∧
    (check_random_url q1 u1).result.title = (check_random_url q2 u2).result.title := by
  cases hq1 : q1 ("/" ++ u1) with
  | httpError m1 =>
      cases hq2 : q2 ("/" ++ u2) with
      | httpError m2 =>
          simp [check_random_url, check_random_url_body, hq1, hq2, decorate_result,
            CheckReturn.withTitle, CheckResult.withTitle, CheckReturn.result]
      | scimClientError c2 => simp [QueryOutcome.sameShape, hq1, hq2] at h
      | ok obj2 => cases obj2 <;> simp [QueryOutcome.sameShape, hq1, hq2] at h
  | scimClientError c1 =>
      cases hq2 : q2 ("/" ++ u2) with
      | httpError m2 => simp [QueryOutcome.sameShape, hq1, hq2] at h
      | scimClientError c2 =>
          simp [check_random_url, check_random_url_body, hq1, hq2, decorate_result,
            CheckReturn.withTitle, CheckResult.withTitle, CheckReturn.result]
      | ok obj2 => cases obj2 <;> simp [QueryOutcome.sameShape, hq1, hq2] at h
  | ok obj1 =>
      cases hq2 : q2 ("/" ++ u2) with
      | httpError m2 => cases obj1 <;> simp [QueryOutcome.sameShape, hq1, hq2] at h
      | scimClientError c2 => cases obj1 <;> simp [QueryOutcome.sameShape, hq1, hq2] at h
      | ok obj2 =>
          cases obj1 with
          | error s1 =>
              cases obj2 with
              | error s2 =>
                  by_cases h1 : s1 = some 404 <;> by_cases h2 : s2 = some 404 <;>
                    simp [QueryOutcome.sameShape, hq1, hq2, h1, h2] at h ⊢ <;>
                    simp [check_random_url, check_random_url_body, hq1, hq2, h1, h2,
                      decorate_result, CheckReturn.withTitle, CheckResult.withTitle,
                      CheckReturn.result]
              | other d2 => simp [QueryOutcome.sameShape, hq1, hq2] at h
          | other d1 =>
              cases obj2 with
              | error s2 => simp [QueryOutcome.sameShape, hq1, hq2] at h
              | other d2 =>
                  simp [check_random_url, check_random_url_body, hq1, hq2,
                    decorate_result, CheckReturn.withTitle, CheckResult.withTitle,
                    CheckReturn.result]

/-- C9: two runs of check_server against the same unchanged, stateless
server (one that answers the two per-run random URLs with same-shaped
outcomes) yield reports identical in their sequence of status values
and in their sequence of titles; only diagnostic payloads may differ
through the per-run generated identifiers. -/
theorem check_server_run_deterministic (s : SCIMServer) (seed1 seed2 : String)
    (h : QueryOutcome.sameShape (s.urlResponse ("/" ++ seed1))
      (s.urlResponse ("/" ++ seed2)) = true) :
    (check_server s seed1).map CheckResult.status =
      (check_server s seed2).map CheckResult.status ∧
    (check_server s seed1).map CheckResult.title =
      (check_server s seed2).map CheckResult.title := by
  obtain ⟨hst, hti⟩ :=
    check_random_url_shape_invariant s.urlResponse s.urlResponse seed1 seed2 h
  constructor
  · simp only [check_server, List.cons_append, List.nil_append, List.map_cons]
    rw [hst, map_flatMap_congr CheckResult.status _ _ _
      (fun rt => (check_resource_type_seed_invariant s rt _ seed1 seed2).1)]
  · simp only [check_server, List.cons_append, List.nil_append, List.map_cons]
    rw [hti, map_flatMap_congr CheckResult.title _ _ _
      (fun rt => (check_resource_type_seed_invariant s rt _ seed1 seed2).2)]

/-- Witness for C9 at a concrete healthy server and two distinct seeds. -/
theorem check_server_run_deterministic_witness :
    (check_server healthyServer "a").map CheckResult.status =
      (check_server healthyServer "b").map CheckResult.status ∧
    (check_server healthyServer "a").map CheckResult.title =
      (check_server healthyServer "b").map CheckResult.title :=
  check_server_run_deterministic healthyServer "a" "b" (by decide)

/-- Length of a string is additive over concatenation of the slash
prefix, so a slash-prefixed reason is never the empty string. -/
theorem slash_append_ne_empty (u t : String) : ("/" ++ u ++ t) ≠ "" := by
  intro he
  have hlen := congrArg String.length he
  have hone : ("/" : String).length = 1 := rfl
  simp [String.length_append] at hlen
  omega

/-- Variant of the previous lemma for a reason built from three
concatenated pieces after the slash prefix. -/
theorem slash_append3_ne_empty (u t r : String) : ("/" ++ u ++ t ++ r) ≠ "" := by
  intro he
  have hlen := congrArg String.length he
  have hone : ("/" : String).length = 1 := rfl
  simp [String.length_append] at hlen
  omega

/-- C10 counterexample: a transport error whose stringified message is
empty yields a result whose reason is the empty string, so the claim
that every branch carries a non-empty reason fails at this input. -/
theorem check_random_url_empty_reason_counterexample :
    ¬ (hasNonEmptyReason
        ((check_random_url (fun _ => .httpError "") "u").result) = true) := by
  decide

/-- C10 amended: every CheckResult produced by check_random_url, on
every branch including the SUCCESS branch, carries a populated reason;
on the transport-error branch the reason equals the stringified
transport error (and so is empty exactly when that message is empty),
and on every other branch the reason is a non-empty string. -/
theorem check_random_url_reason_populated (query : String → QueryOutcome)
    (u : String) :
    ((check_random_url query u).result.reason).isSome = true ∧
    (∀ msg, query ("/" ++ u) = .httpError msg →
      (check_random_url query u).result.reason = some msg) ∧
    ((∀ msg, query ("/" ++ u) ≠ .httpError msg) →
      hasNonEmptyReason ((check_random_url query u).result) = true) := by
  cases hq : query ("/" ++ u) with
  | httpError m =>
      refine ⟨?_, ?_, ?_⟩
      · simp [check_random_url, check_random_url_body, hq, decorate_result,
          CheckReturn.withTitle, CheckResult.withTitle, CheckReturn.result]
      · intro msg hm
        injection hm with hmsg
        subst hmsg
        simp [check_random_url, check_random_url_body, hq, decorate_result,
          CheckReturn.withTitle, CheckResult.withTitle, CheckReturn.result]
      · intro hno
        exact absurd rfl (hno m)
  | scimClientError c =>
      refine ⟨?_, fun msg hm => absurd hm (by simp), fun _ => ?_⟩ <;>
        simp [check_random_url, check_random_url_body, hq, decorate_result,
          CheckReturn.withTitle, CheckResult.withTitle, CheckReturn.result,
          hasNonEmptyReason, slash_append_ne_empty]
  | ok obj =>
      cases obj with
      | other d =>
          refine ⟨?_, fun msg hm => absurd hm (by simp), fun _ => ?_⟩ <;>
            simp [check_random_url, check_random_url_body, hq, decorate_result,
              CheckReturn.withTitle, CheckResult.withTitle, CheckReturn.result,
              hasNonEmptyReason, slash_append_ne_empty]
      | error st =>
          by_cases h404 : st = some 404
          · subst h404
            refine ⟨?_, fun msg hm => absurd hm (by simp), fun _ => ?_⟩ <;>
              simp [check_random_url, check_random_url_body, hq, decorate_result,
                CheckReturn.withTitle, CheckResult.withTitle, CheckReturn.result,
                hasNonEmptyReason, slash_append_ne_empty]
          · refine ⟨?_, fun msg hm => absurd hm (by simp), fun _ => ?_⟩ <;>
              simp [check_random_url, check_random_url_body, hq, h404, decorate_result,
                CheckReturn.withTitle, CheckResult.withTitle, CheckReturn.result,
                hasNonEmptyReason, slash_append_ne_empty, slash_append3_ne_empty]

/-- Witness for the amended C10 at a concrete 404 Error response. -/
theorem check_random_url_reason_populated_witness :
    (((check_random_url (fun _ => .ok (.error (some 404))) "u").result.reason).isSome
      = true) ∧
    hasNonEmptyReason
      ((check_random_url (fun _ => .ok (.error (some 404))) "u").result) = true :=
  ⟨(check_random_url_reason_populated (fun _ => .ok (.error (some 404))) "u").1,
   (check_random_url_reason_populated (fun _ => .ok (.error (some 404))) "u").2.2
     (fun _ hm => QueryOutcome.noConfusion hm)⟩

end Scim2Tester
